import Mathlib

/-!
Verification development for the query-builder layer of the repository.

The fluent builder is embedded from
src/packages/core/src/expression-builders/query-builder.ts.
The statement assembler (the query generator reached through
model.queryGenerator.selectQuery) and the where-clause compiler are part of
the repository but their sources are not available here; they are modelled
from the specification (spec.md, sections 3, 4.1, 4.2, 4.3 and 7), with the
error messages pinned by the integration tests under
src/packages/core/test/integration/query-builder/.
-/

/-- Pagination clause style of a dialect, from the spec (section 3). -/
inductive PaginationStyle where
  | limitOffset
  | offsetFetch
deriving DecidableEq

/-- Modelled from the spec: the Dialect Descriptor (section 3), a data-only
description of one database family. The spec field stringPrefix is named
stringMarker here; neOperator realises the dialect-chosen NE spelling of
section 4.2 and supportsILike the ILIKE capability gap of sections 4.2/7. -/
structure Dialect where
  quoteOpen : String
  quoteClose : String
  boolLit : Bool → String
  stringMarker : String
  neOperator : String
  supportsILike : Bool
  paginationStyle : PaginationStyle

/-- Modelled from the spec: the Model Descriptor (sections 3 and 6). -/
structure ModelDescriptor where
  tableName : String
  modelName : String
  tableAlias : String
  columns : List String
  primaryKey : String

/-- A scalar SQL value. vNull models both a JavaScript null and an undefined
operand (the spec treats the two alike for the EQ/NE rewrite, section 3). -/
inductive SqlVal where
  | vNull
  | vBool (b : Bool)
  | vInt (n : Int)
  | vStr (s : String)
deriving DecidableEq

/-- Comparison operators of predicate leaves, from the spec (section 3). -/
inductive CmpOp where
  | eq
  | ne
  | lt
  | lte
  | gt
  | gte
  | like
  | iLike
deriving DecidableEq

/-- Modelled from the spec: the Predicate Tree (section 3). Combinators are
embedded in binary form; an n-ary AND/OR node of the spec corresponds to a
same-kind nested chain here. -/
inductive Predicate where
  | cmp (col : String) (op : CmpOp) (v : SqlVal)
  | inSet (col : String) (vs : List SqlVal)
  | between (col : String) (lo hi : SqlVal)
  | isNull (col : String)
  | isNotNull (col : String)
  | and (p q : Predicate)
  | or (p q : Predicate)
deriving DecidableEq

/-- The argument accepted by the where method of the builder: the TypeScript
WhereOptions value may be undefined, the JavaScript null, or a predicate
tree. -/
inductive WhereArg where
  | undef
  | null
  | conds (p : Predicate)
deriving DecidableEq

/-- Error kinds of the compilation layer, from the spec (section 7) plus the
empty IN list error of section 4.1. -/
inductive QBError where
  | notInSelectMode
  | emptyProjection (modelName quotedAlias : String)
  | invalidPredicate
  | unsupportedOperatorForDialect
  | emptyInList
deriving DecidableEq

/-- Error message text. The notInSelectMode text is from query-builder.ts
line 114; the emptyProjection text is pinned by the integration test
(query-builder.test.js, error handling block); the others are modelled from
the spec only. -/
def QBError.message : QBError → String
  | .notInSelectMode => "Query builder requires select() to be called first"
  | .emptyProjection n qa =>
      "Attempted a SELECT query for model \x27" ++ n ++ "\x27 as " ++ qa ++
        " without selecting any columns"
  | .invalidPredicate => "Invalid where option: null is not a valid predicate"
  | .unsupportedOperatorForDialect => "Operator is not supported by this dialect"
  | .emptyInList => "IN requires a non-empty list of values"

/-- Modelled from the spec: identifier encoding (section 4.1), wrapping the
identifier in the quote pair of the dialect. -/
def quoteId (d : Dialect) (s : String) : String :=
  d.quoteOpen ++ s ++ d.quoteClose

/-- Doubling of internal single quotes in string literals (spec 4.1). -/
def escapeSingleQuotes (s : String) : String :=
  String.mk (s.data.flatMap fun c => if c = '\x27' then [c, c] else [c])

/-- Modelled from the spec: literal encoding (section 4.1). -/
def renderVal (d : Dialect) : SqlVal → String
  | .vNull => "NULL"
  | .vBool b => d.boolLit b
  | .vInt n => toString n
  | .vStr s => d.stringMarker ++ "\x27" ++ escapeSingleQuotes s ++ "\x27"

/-- Column reference qualified by the table alias (spec 4.2). -/
def qualifyCol (d : Dialect) (al col : String) : String :=
  quoteId d al ++ "." ++ quoteId d col

/-- Modelled from the spec: the fixed operator-to-SQL mapping of section 4.2.
ILIKE on a dialect lacking native support is a reported capability gap. -/
def cmpOpSql (d : Dialect) : CmpOp → Except QBError String
  | .eq => .ok "="
  | .ne => .ok d.neOperator
  | .lt => .ok "<"
  | .lte => .ok "<="
  | .gt => .ok ">"
  | .gte => .ok ">="
  | .like => .ok "LIKE"
  | .iLike =>
      if d.supportsILike then .ok "ILIKE" else .error .unsupportedOperatorForDialect

/-- Wraps a fragment in parentheses when the flag is set. -/
def wrapParens (b : Bool) (s : String) : String :=
  if b then "(" ++ s ++ ")" else s

/-- Whether a child needs parentheses under a combinator parent: a combinator
nested inside a different combinator kind is parenthesized (spec 4.2). The
flag parentIsAnd tells the kind of the parent. -/
def mixedChild (parentIsAnd : Bool) : Predicate → Bool
  | .and _ _ => !parentIsAnd
  | .or _ _ => parentIsAnd
  | _ => false

/-- Modelled from the spec: the Predicate Compiler (section 4.2), rendering a
predicate tree into a WHERE-clause fragment. A NULL operand on EQ/NE is
rewritten to IS NULL and IS NOT NULL before compilation (spec section 3). -/
def renderPred (d : Dialect) (al : String) : Predicate → Except QBError String
  | .cmp col .eq .vNull => .ok (qualifyCol d al col ++ " IS NULL")
  | .cmp col .ne .vNull => .ok (qualifyCol d al col ++ " IS NOT NULL")
  | .cmp col op v => do
      let o ← cmpOpSql d op
      Except.ok (qualifyCol d al col ++ " " ++ o ++ " " ++ renderVal d v)
  | .inSet _ [] => .error .emptyInList
  | .inSet col (v :: vs) =>
      .ok (qualifyCol d al col ++ " IN (" ++
        String.intercalate ", " ((v :: vs).map (renderVal d)) ++ ")")
  | .between col lo hi =>
      .ok ("(" ++ qualifyCol d al col ++ " BETWEEN " ++ renderVal d lo ++
        " AND " ++ renderVal d hi ++ ")")
  | .isNull col => .ok (qualifyCol d al col ++ " IS NULL")
  | .isNotNull col => .ok (qualifyCol d al col ++ " IS NOT NULL")
  | .and p q => do
      let l ← renderPred d al p
      let r ← renderPred d al q
      Except.ok (wrapParens (mixedChild true p) l ++ " AND " ++
        wrapParens (mixedChild true q) r)
  | .or p q => do
      let l ← renderPred d al p
      let r ← renderPred d al q
      Except.ok (wrapParens (mixedChild false p) l ++ " OR " ++
        wrapParens (mixedChild false q) r)

/-- The options record built by getQuery (query-builder.ts lines 121 to 129);
the where field of the TypeScript object is named whereOpt here. -/
structure SelectOptions where
  attributes : Option (List String)
  whereOpt : WhereArg
  limit : Option Nat
  offset : Option Nat
  raw : Bool
  plain : Bool

/-- Modelled from the spec: projection rendering (section 4.3). An absent
attribute list renders the star; an explicitly empty one is the empty
projection error, whose message is pinned by the integration test. -/
def attributeText (d : Dialect) (m : ModelDescriptor) :
    Option (List String) → Except QBError String
  | none => .ok "*"
  | some [] => .error (.emptyProjection m.modelName (quoteId d m.tableAlias))
  | some (a :: rest) =>
      .ok (String.intercalate ", " ((a :: rest).map (quoteId d)))

/-- Modelled from the spec: the WHERE fragment (sections 4.2 and 4.3). An
absent predicate yields no fragment; an explicit null fails fast (spec
section 7, InvalidPredicate). -/
def whereFragment (d : Dialect) (al : String) :
    WhereArg → Except QBError (Option String)
  | .undef => .ok none
  | .null => .error .invalidPredicate
  | .conds p => (renderPred d al p).map some

/-- Modelled from the spec: the default ORDER BY injection (section 4.3),
emitted exactly when pagination is present; the Query Descriptor carries no
explicit ordering, so the fallback is always the primary key. -/
def orderByClause (d : Dialect) (m : ModelDescriptor)
    (lim off : Option Nat) : String :=
  if lim.isSome || off.isSome then
    " ORDER BY " ++ quoteId d m.tableAlias ++ "." ++ quoteId d m.primaryKey
  else ""

/-- Modelled from the spec: the pagination clause (section 4.3). In
LIMIT_OFFSET style each part is emitted only if present, limit before
offset; in OFFSET_FETCH style a present limit always emits an offset,
defaulting to zero. -/
def paginationClause (d : Dialect) (lim off : Option Nat) : String :=
  match d.paginationStyle with
  | .limitOffset =>
      (match lim with
       | none => ""
       | some n => " LIMIT " ++ toString n) ++
      (match off with
       | none => ""
       | some k => " OFFSET " ++ toString k)
  | .offsetFetch =>
      match lim with
      | some n =>
          " OFFSET " ++ toString (off.getD 0) ++ " ROWS FETCH NEXT " ++
            toString n ++ " ROWS ONLY"
      | none =>
          match off with
          | some k => " OFFSET " ++ toString k ++ " ROWS"
          | none => ""

/-- Modelled from the spec: the Statement Assembler (section 4.3), the
selectQuery of the abstract query generator, whose source is not available
here. Clause order is fixed: SELECT, FROM with alias, WHERE, ORDER BY,
pagination, terminal semicolon. -/
def selectQuery (tn : String) (opts : SelectOptions) (m : ModelDescriptor)
    (d : Dialect) : Except QBError String := do
  let attrText ← attributeText d m opts.attributes
  let wf ← whereFragment d m.tableAlias opts.whereOpt
  let whereText := match wf with
    | none => ""
    | some f => " WHERE " ++ f
  Except.ok ("SELECT " ++ attrText ++ " FROM " ++ quoteId d tn ++ " AS " ++
    quoteId d m.tableAlias ++ whereText ++
    orderByClause d m opts.limit opts.offset ++
    paginationClause d opts.limit opts.offset ++ ";")

/-- The builder state, embedding the private fields of the QueryBuilder class
(query-builder.ts lines 13 to 19). The model reference stands in for both
the model and the sequelize handle derived from it. -/
structure QueryBuilder where
  _model : ModelDescriptor
  _attributes : Option (List String)
  _where : WhereArg
  _limit : Option Nat
  _offset : Option Nat
  _isSelect : Bool

/-- The constructor new QueryBuilder(model) together with the field
initializers (query-builder.ts lines 13 to 25): every optional field starts
absent and _isSelect starts false. Also the createQueryBuilder helper of
lines 173 to 175. -/
def createQueryBuilder (m : ModelDescriptor) : QueryBuilder :=
  { _model := m
    _attributes := none
    _where := .undef
    _limit := none
    _offset := none
    _isSelect := false }

/-- QueryBuilder.clone (query-builder.ts lines 32 to 41): a fresh builder on
the same model with all five mutable fields copied over. -/
def QueryBuilder.clone (b : QueryBuilder) : QueryBuilder :=
  { _model := b._model
    _isSelect := b._isSelect
    _attributes := b._attributes
    _where := b._where
    _limit := b._limit
    _offset := b._offset }

/-- QueryBuilder.select (query-builder.ts lines 48 to 53): a fresh builder on
the same model with only _isSelect set to true; accumulated attributes,
where, limit and offset are not carried over. -/
def QueryBuilder.select (b : QueryBuilder) : QueryBuilder :=
  { createQueryBuilder b._model with _isSelect := true }

/-- QueryBuilder.attributes (query-builder.ts lines 61 to 66): clone, then
overwrite the attribute list. -/
def QueryBuilder.attributes (b : QueryBuilder) (as : List String) : QueryBuilder :=
  { b.clone with _attributes := some as }

/-- The where method (query-builder.ts lines 74 to 79; the name where is a
keyword in Lean): clone, then overwrite the where argument with whatever
was passed, including an explicit null or undefined. -/
def QueryBuilder.whereCond (b : QueryBuilder) (w : WhereArg) : QueryBuilder :=
  { b.clone with _where := w }

/-- QueryBuilder.limit (query-builder.ts lines 87 to 92). -/
def QueryBuilder.limit (b : QueryBuilder) (n : Nat) : QueryBuilder :=
  { b.clone with _limit := some n }

/-- QueryBuilder.offset (query-builder.ts lines 100 to 105). -/
def QueryBuilder.offset (b : QueryBuilder) (k : Nat) : QueryBuilder :=
  { b.clone with _offset := some k }

/-- QueryBuilder.getQuery (query-builder.ts lines 112 to 135): guard on
select mode, then hand the options record to the assembler. The dialect is
the one reached through model.queryGenerator in the source and is passed
explicitly here. -/
def QueryBuilder.getQuery (b : QueryBuilder) (d : Dialect) : Except QBError String :=
  if !b._isSelect then .error .notInSelectMode
  else
    selectQuery b._model.tableName
      { attributes := b._attributes
        whereOpt := b._where
        limit := b._limit
        offset := b._offset
        raw := true
        plain := false } b._model d

/-- The select method as a state transformer on the receiver: the first
component is the state of the receiver after the call, the second the
returned builder. The source method assigns only to fields of the freshly
constructed builder and never to a field of this, so the receiver state is
returned unchanged. -/
def QueryBuilder.selectM (b : QueryBuilder) : QueryBuilder × QueryBuilder :=
  (b, b.select)

/-- The attributes method as a state transformer on the receiver; see
selectM. -/
def QueryBuilder.attributesM (b : QueryBuilder) (as : List String) :
    QueryBuilder × QueryBuilder :=
  (b, b.attributes as)

/-- The where method as a state transformer on the receiver; see selectM. -/
def QueryBuilder.whereM (b : QueryBuilder) (w : WhereArg) :
    QueryBuilder × QueryBuilder :=
  (b, b.whereCond w)

/-- The limit method as a state transformer on the receiver; see selectM. -/
def QueryBuilder.limitM (b : QueryBuilder) (n : Nat) :
    QueryBuilder × QueryBuilder :=
  (b, b.limit n)

/-- The offset method as a state transformer on the receiver; see selectM. -/
def QueryBuilder.offsetM (b : QueryBuilder) (k : Nat) :
    QueryBuilder × QueryBuilder :=
  (b, b.offset k)

/-- The getQuery method as a state transformer on the receiver: the source
method only reads fields, so the receiver state is returned unchanged next
to the rendered text. -/
def QueryBuilder.getQueryM (b : QueryBuilder) (d : Dialect) :
    QueryBuilder × Except QBError String :=
  (b, b.getQuery d)

/-- One chained builder operation, for reasoning about whole chains. -/
inductive ChainOp where
  | select
  | attrs (as : List String)
  | whereC (w : WhereArg)
  | limitC (n : Nat)
  | offsetC (k : Nat)
deriving DecidableEq

/-- Applies one chained operation to a builder. -/
def applyOp (b : QueryBuilder) : ChainOp → QueryBuilder
  | .select => b.select
  | .attrs as => b.attributes as
  | .whereC w => b.whereCond w
  | .limitC n => b.limit n
  | .offsetC k => b.offset k

/-- Applies a chain of operations from left to right. -/
def applyOps (b : QueryBuilder) : List ChainOp → QueryBuilder
  | [] => b
  | op :: rest => applyOps (applyOp b op) rest

/-- Substring containment at the character-list level. -/
abbrev containsStr (s t : String) : Prop :=
  t.data <:+: s.data

/-- A PostgreSQL-flavoured dialect descriptor, matching the default branch of
the integration tests. -/
def pgDialect : Dialect :=
  { quoteOpen := "\""
    quoteClose := "\""
    boolLit := fun b => if b then "true" else "false"
    stringMarker := ""
    neOperator := "!="
    supportsILike := true
    paginationStyle := .limitOffset }

/-- An MSSQL-flavoured dialect descriptor, matching the mssql branch of the
integration tests. -/
def mssqlDialect : Dialect :=
  { quoteOpen := "["
    quoteClose := "]"
    boolLit := fun b => if b then "1" else "0"
    stringMarker := "N"
    neOperator := "!="
    supportsILike := false
    paginationStyle := .offsetFetch }

/-- The User model of the integration tests. -/
def userModel : ModelDescriptor :=
  { tableName := "users"
    modelName := "User"
    tableAlias := "User"
    columns := ["id", "name", "email", "active", "age"]
    primaryKey := "id" }

example :
    ((createQueryBuilder userModel).select).getQuery mssqlDialect =
      .ok "SELECT * FROM [users] AS [User];" := by rfl

example :
    ((createQueryBuilder userModel).select.attributes ["name", "email"]).getQuery
        mssqlDialect =
      .ok "SELECT [name], [email] FROM [users] AS [User];" := by rfl

example :
    ((createQueryBuilder userModel).select.whereCond
        (.conds (.and (.cmp "active" .eq (.vBool true))
          (.cmp "age" .eq (.vInt 25))))).getQuery pgDialect =
      .ok "SELECT * FROM \"users\" AS \"User\" WHERE \"User\".\"active\" = true AND \"User\".\"age\" = 25;" := by
  rfl

example :
    ((createQueryBuilder userModel).select.limit 10).getQuery mssqlDialect =
      .ok "SELECT * FROM [users] AS [User] ORDER BY [User].[id] OFFSET 0 ROWS FETCH NEXT 10 ROWS ONLY;" := by
  rfl

example :
    ((createQueryBuilder userModel).select.limit 10).getQuery pgDialect =
      .ok "SELECT * FROM \"users\" AS \"User\" ORDER BY \"User\".\"id\" LIMIT 10;" := by
  rfl

example :
    (((createQueryBuilder userModel).select.limit 10).offset 5).getQuery pgDialect =
      .ok "SELECT * FROM \"users\" AS \"User\" ORDER BY \"User\".\"id\" LIMIT 10 OFFSET 5;" := by
  rfl

/-- Binding a successful Except value applies the continuation. -/
@[simp] theorem exceptBind_ok {ε α β : Type} (a : α) (f : α → Except ε β) :
    (Except.ok a >>= f) = f a := rfl

/-- Binding a failed Except value propagates the error. -/
@[simp] theorem exceptBind_error {ε α β : Type} (e : ε) (f : α → Except ε β) :
    ((Except.error e : Except ε α) >>= f) = Except.error e := rfl

/-- Mapping over a successful Except value applies the function. -/
@[simp] theorem exceptMap_ok {ε α β : Type} (a : α) (f : α → β) :
    (Except.ok a : Except ε α).map f = Except.ok (f a) := rfl

/-- Mapping over a failed Except value propagates the error. -/
@[simp] theorem exceptMap_error {ε α β : Type} (e : ε) (f : α → β) :
    (Except.error e : Except ε α).map f = Except.error e := rfl

/-- The only error the projection renderer can raise is the empty projection
error for the model at hand. -/
theorem attributeText_eq_error (d : Dialect) (m : ModelDescriptor)
    (a : Option (List String)) (e : QBError)
    (h : attributeText d m a = .error e) :
    e = .emptyProjection m.modelName (quoteId d m.tableAlias) := by
  match a with
  | none => simp [attributeText] at h
  | some [] =>
      simp [attributeText] at h
      exact h.symm
  | some (x :: xs) => simp [attributeText] at h

/-- The predicate compiler never raises the not-in-select-mode error. -/
theorem renderPred_ne_notInSelect (d : Dialect) (al : String) :
    ∀ p : Predicate, renderPred d al p ≠ Except.error QBError.notInSelectMode := by
  intro p
  induction p with
  | cmp col op v =>
      cases op <;> cases v <;>
        simp [renderPred, cmpOpSql] <;> split <;> simp
  | inSet col vs => cases vs <;> simp [renderPred]
  | between col lo hi => simp [renderPred]
  | isNull col => simp [renderPred]
  | isNotNull col => simp [renderPred]
  | and p q ihp ihq =>
      intro h
      simp only [renderPred] at h
      cases hp : renderPred d al p with
      | error e =>
          rw [hp, exceptBind_error] at h
          injection h with he
          exact ihp (he ▸ hp)
      | ok l =>
          rw [hp, exceptBind_ok] at h
          cases hq : renderPred d al q with
          | error e =>
              rw [hq, exceptBind_error] at h
              injection h with he
              exact ihq (he ▸ hq)
          | ok r =>
              rw [hq, exceptBind_ok] at h
              simp at h
  | or p q ihp ihq =>
      intro h
      simp only [renderPred] at h
      cases hp : renderPred d al p with
      | error e =>
          rw [hp, exceptBind_error] at h
          injection h with he
          exact ihp (he ▸ hp)
      | ok l =>
          rw [hp, exceptBind_ok] at h
          cases hq : renderPred d al q with
          | error e =>
              rw [hq, exceptBind_error] at h
              injection h with he
              exact ihq (he ▸ hq)
          | ok r =>
              rw [hq, exceptBind_ok] at h
              simp at h

/-- The where-fragment renderer never raises the not-in-select-mode error. -/
theorem whereFragment_error_ne (d : Dialect) (al : String) (w : WhereArg)
    (e : QBError) (h : whereFragment d al w = .error e) :
    e ≠ QBError.notInSelectMode := by
  intro he
  subst he
  cases w with
  | undef => simp [whereFragment] at h
  | null => simp [whereFragment] at h
  | conds p =>
      simp only [whereFragment] at h
      cases hp : renderPred d al p with
      | error e2 =>
          rw [hp, exceptMap_error] at h
          injection h with h2
          exact renderPred_ne_notInSelect d al p (h2 ▸ hp)
      | ok s =>
          rw [hp, exceptMap_ok] at h
          simp at h

/-- The statement assembler never raises the not-in-select-mode error: that
error belongs to the builder mode guard alone. -/
theorem selectQuery_ne_notInSelect (tn : String) (opts : SelectOptions)
    (m : ModelDescriptor) (d : Dialect) :
    selectQuery tn opts m d ≠ Except.error QBError.notInSelectMode := by
  intro h
  simp only [selectQuery] at h
  cases hA : attributeText d m opts.attributes with
  | error e =>
      rw [hA, exceptBind_error] at h
      injection h with he
      have h2 := attributeText_eq_error d m opts.attributes e hA
      rw [he] at h2
      exact QBError.noConfusion h2
  | ok t =>
      rw [hA, exceptBind_ok] at h
      cases hW : whereFragment d m.tableAlias opts.whereOpt with
      | error e =>
          rw [hW, exceptBind_error] at h
          injection h with he
          exact whereFragment_error_ne d m.tableAlias opts.whereOpt e hW he
      | ok wf =>
          rw [hW, exceptBind_ok] at h
          simp at h

/-- getQuery raises the not-in-select-mode error exactly when the builder is
not in select mode. -/
theorem getQuery_notInSelect_iff (b : QueryBuilder) (d : Dialect) :
    b.getQuery d = Except.error QBError.notInSelectMode ↔ b._isSelect = false := by
  unfold QueryBuilder.getQuery
  cases hb : b._isSelect with
  | false => simp
  | true =>
      simp only [Bool.not_true, Bool.false_eq_true, if_false, Bool.true_eq_false,
        iff_false]
      exact selectQuery_ne_notInSelect _ _ _ _

/-- A chain of operations ends in select mode exactly when the chain holds a
select call or the starting builder was already in select mode. -/
theorem applyOps_isSelect :
    ∀ (ops : List ChainOp) (b : QueryBuilder),
      (applyOps b ops)._isSelect = true ↔
        (ChainOp.select ∈ ops ∨ b._isSelect = true) := by
  intro ops
  induction ops with
  | nil => intro b; simp [applyOps]
  | cons op rest ih =>
      intro b
      cases op <;>
        simp [applyOps, applyOp, ih, QueryBuilder.select, QueryBuilder.attributes,
          QueryBuilder.whereCond, QueryBuilder.limit, QueryBuilder.offset,
          QueryBuilder.clone, createQueryBuilder, or_assoc]

/-- With select mode on, no attributes and no where argument, getQuery
assembles the statement from the star projection, the quoted table and
alias, and the order-by and pagination clauses driven by limit and offset;
no WHERE section appears. -/
theorem getQuery_eq_assembled (b : QueryBuilder) (d : Dialect)
    (hSel : b._isSelect = true) (hA : b._attributes = none)
    (hW : b._where = WhereArg.undef) :
    b.getQuery d = .ok ("SELECT * FROM " ++ quoteId d b._model.tableName ++
      " AS " ++ quoteId d b._model.tableAlias ++
      orderByClause d b._model b._limit b._offset ++
      paginationClause d b._limit b._offset ++ ";") := by
  obtain ⟨m, a, w, l, o, s⟩ := b
  simp only at hSel hA hW
  subst hSel hA hW
  show Except.ok ("SELECT " ++ "*" ++ " FROM " ++ quoteId d m.tableName ++
      " AS " ++ quoteId d m.tableAlias ++ "" ++ orderByClause d m l o ++
      paginationClause d l o ++ ";") = _
  simp only [String.append_empty]
  rfl

/-- With no limit and no offset the pagination clause is empty in both
dialect styles. -/
theorem paginationClause_none_none (d : Dialect) :
    paginationClause d none none = "" := by
  cases hp : d.paginationStyle <;> simp [paginationClause, hp]

/-- C1: for every QueryBuilder value b and every chained operation
(attributes, where, limit, offset, select) applied to b, the receiver state
after the call is the state before it, so the SQL text rendered by
b.getQuery() is the same before and after the chained call: mutator
operations return a new builder and never alter the state of the receiver. -/
theorem qb_chained_ops_preserve_receiver (b : QueryBuilder) (d : Dialect)
    (as : List String) (w : WhereArg) (n k : Nat) :
    ((b.attributesM as).1 = b ∧ (b.whereM w).1 = b ∧ (b.limitM n).1 = b ∧
      (b.offsetM k).1 = b ∧ b.selectM.1 = b) ∧
    ((b.attributesM as).1.getQuery d = b.getQuery d ∧
      (b.whereM w).1.getQuery d = b.getQuery d ∧
      (b.limitM n).1.getQuery d = b.getQuery d ∧
      (b.offsetM k).1.getQuery d = b.getQuery d ∧
      b.selectM.1.getQuery d = b.getQuery d) :=
  ⟨⟨rfl, rfl, rfl, rfl, rfl⟩, rfl, rfl, rfl, rfl, rfl⟩

/-- C2: for every QueryBuilder value b, with any accumulated attributes,
where, limit and offset, b.select() returns a builder whose attributes,
where, limit and offset are all absent, so b.select().getQuery() renders
SELECT * FROM table AS alias; regardless of the state accumulated in b. -/
theorem qb_select_resets_state (b : QueryBuilder) (d : Dialect) :
    b.select._attributes = none ∧ b.select._where = WhereArg.undef ∧
    b.select._limit = none ∧ b.select._offset = none ∧
    b.select.getQuery d =
      .ok ("SELECT * FROM " ++ quoteId d b._model.tableName ++ " AS " ++
        quoteId d b._model.tableAlias ++ ";") := by
  refine ⟨rfl, rfl, rfl, rfl, ?_⟩
  have h := getQuery_eq_assembled b.select d rfl rfl rfl
  simp only [QueryBuilder.select, createQueryBuilder] at h ⊢
  rw [h, paginationClause_none_none]
  simp [orderByClause, String.append_empty]

/-- C6: rendering is deterministic: getQuery is a pure read of the builder
state, so for a fixed builder, model and dialect, two invocations return
byte-identical text and leave the receiver state untouched. -/
theorem qb_render_deterministic (b : QueryBuilder) (d : Dialect) :
    (b.getQueryM d).2 = ((b.getQueryM d).1.getQueryM d).2 ∧
    ((b.getQueryM d).1.getQueryM d).1 = b ∧
    b.getQuery d = b.getQuery d :=
  ⟨rfl, rfl, rfl⟩

/-- C9: independent setters commute: applying limit then where gives the same
builder state, and hence the same rendered text, as applying where then
limit, because each setter clones all five state fields and overwrites only
its own. -/
theorem qb_limit_where_commute (b : QueryBuilder) (d : Dialect)
    (w : WhereArg) (n : Nat) :
    (b.limit n).whereCond w = (b.whereCond w).limit n ∧
    ((b.limit n).whereCond w).getQuery d =
      ((b.whereCond w).limit n).getQuery d :=
  ⟨rfl, rfl⟩

/-- C10: repeated application of the same setter is last-write-wins, not
merging: a second where call replaces the first condition, and attributes,
limit and offset each overwrite their previous value. -/
theorem qb_setters_last_write_wins (b : QueryBuilder) (d : Dialect)
    (w1 w2 : WhereArg) (a1 a2 : List String) (n1 n2 k1 k2 : Nat) :
    ((b.whereCond w1).whereCond w2 = b.whereCond w2 ∧
      ((b.whereCond w1).whereCond w2).getQuery d =
        (b.whereCond w2).getQuery d) ∧
    (b.attributes a1).attributes a2 = b.attributes a2 ∧
    (b.limit n1).limit n2 = b.limit n2 ∧
    (b.offset k1).offset k2 = b.offset k2 :=
  ⟨⟨rfl, rfl⟩, rfl, rfl, rfl⟩

/-- C3: getQuery, and hence execute, fails with the not-in-select-mode error
if and only if select mode was never entered on the chain built from a
fresh builder; and once select has been called on a chain, getQuery never
raises this error whatever operations follow. -/
theorem qb_notInSelect_error_iff (m : ModelDescriptor) (d : Dialect)
    (ops : List ChainOp) :
    ((applyOps (createQueryBuilder m) ops).getQuery d =
        Except.error QBError.notInSelectMode ↔ ChainOp.select ∉ ops) ∧
    ∀ (b : QueryBuilder) (ops2 : List ChainOp),
      (applyOps b.select ops2).getQuery d ≠
        Except.error QBError.notInSelectMode := by
  constructor
  · rw [getQuery_notInSelect_iff]
    have h := applyOps_isSelect ops (createQueryBuilder m)
    rw [show (createQueryBuilder m)._isSelect = false from rfl] at h
    simp only [Bool.false_eq_true, or_false] at h
    constructor
    · intro hf hc
      have ht := h.mpr hc
      rw [ht] at hf
      exact Bool.noConfusion hf
    · intro hns
      cases hb : (applyOps (createQueryBuilder m) ops)._isSelect with
      | false => rfl
      | true => exact absurd (h.mp hb) hns
  · intro b ops2 hq
    rw [getQuery_notInSelect_iff] at hq
    have h2 := (applyOps_isSelect ops2 b.select).mpr (Or.inr rfl)
    rw [h2] at hq
    exact Bool.noConfusion hq

/-- C4: for every builder in select mode whose attributes were explicitly
set to the empty sequence, getQuery fails with the empty-projection error,
whose message names the model and the quoted alias, rather than emitting
SELECT star or any SQL text. -/
theorem qb_empty_projection_error (b : QueryBuilder) (d : Dialect)
    (hSel : b._isSelect = true) (hA : b._attributes = some []) :
    b.getQuery d =
      Except.error
        (.emptyProjection b._model.modelName (quoteId d b._model.tableAlias)) ∧
    containsStr
      (QBError.message
        (.emptyProjection b._model.modelName (quoteId d b._model.tableAlias)))
      b._model.modelName ∧
    containsStr
      (QBError.message
        (.emptyProjection b._model.modelName (quoteId d b._model.tableAlias)))
      (quoteId d b._model.tableAlias) := by
  refine ⟨?_, ?_, ?_⟩
  · obtain ⟨m, a, w, l, o, s⟩ := b
    simp only at hSel hA
    subst hSel hA
    simp [QueryBuilder.getQuery, selectQuery, attributeText]
  · refine ⟨("Attempted a SELECT query for model \x27").data,
      ("\x27 as " ++ quoteId d b._model.tableAlias ++
        " without selecting any columns").data, ?_⟩
    simp [QBError.message, String.data_append, List.append_assoc]
  · refine ⟨("Attempted a SELECT query for model \x27" ++ b._model.modelName ++
      "\x27 as ").data, (" without selecting any columns").data, ?_⟩
    simp [QBError.message, String.data_append, List.append_assoc]

/-- Witness for C4: the concrete empty projection of the integration test,
on the mssql-style dialect. -/
theorem qb_empty_projection_error_witness :
    (((createQueryBuilder userModel).select.attributes [])._isSelect = true ∧
      ((createQueryBuilder userModel).select.attributes [])._attributes =
        some []) ∧
    ((createQueryBuilder userModel).select.attributes []).getQuery
        mssqlDialect =
      Except.error (.emptyProjection "User" "[User]") ∧
    containsStr (QBError.message (.emptyProjection "User" "[User]")) "User" ∧
    containsStr (QBError.message (.emptyProjection "User" "[User]")) "[User]" :=
  ⟨⟨rfl, rfl⟩, qb_empty_projection_error _ mssqlDialect rfl rfl⟩

/-- C5: getQuery after where(null) fails fast with the invalid-predicate
error, while where(undefined) succeeds and renders the statement with no
WHERE clause: the text is only the star projection, the FROM clause and the
limit and offset driven clauses. -/
theorem qb_where_null_fails_undefined_succeeds (b : QueryBuilder)
    (d : Dialect) (hSel : b._isSelect = true) (hA : b._attributes = none) :
    (b.whereCond WhereArg.null).getQuery d =
      Except.error QBError.invalidPredicate ∧
    (b.whereCond WhereArg.undef).getQuery d =
      .ok ("SELECT * FROM " ++ quoteId d b._model.tableName ++ " AS " ++
        quoteId d b._model.tableAlias ++
        orderByClause d b._model b._limit b._offset ++
        paginationClause d b._limit b._offset ++ ";") := by
  constructor
  · obtain ⟨m, a, w, l, o, s⟩ := b
    simp only at hSel hA
    subst hSel hA
    simp [QueryBuilder.whereCond, QueryBuilder.clone, QueryBuilder.getQuery,
      selectQuery, attributeText, whereFragment]
  · exact getQuery_eq_assembled (b.whereCond WhereArg.undef) d hSel hA rfl

/-- Witness for C5: a fresh select on the User model, postgres-style
dialect. -/
theorem qb_where_null_fails_undefined_succeeds_witness :
    ((createQueryBuilder userModel).select._isSelect = true ∧
      (createQueryBuilder userModel).select._attributes = none) ∧
    ((createQueryBuilder userModel).select.whereCond WhereArg.null).getQuery
        pgDialect =
      Except.error QBError.invalidPredicate ∧
    ((createQueryBuilder userModel).select.whereCond WhereArg.undef).getQuery
        pgDialect =
      .ok "SELECT * FROM \"users\" AS \"User\";" :=
  ⟨⟨rfl, rfl⟩,
    qb_where_null_fails_undefined_succeeds _ pgDialect rfl rfl⟩

/-- C7: for an EQ or NE leaf whose operand is null or undefined, the
rendered WHERE fragment is exactly the qualified column followed by
IS NULL, respectively IS NOT NULL, hence it contains IS NULL or
IS NOT NULL and never an equals NULL comparison, the identifiers and quote
characters being free of the equals character. -/
theorem qb_null_operand_rewrite (d : Dialect) (al col : String)
    (h1 : '=' ∉ al.data) (h2 : '=' ∉ col.data)
    (h3 : '=' ∉ d.quoteOpen.data) (h4 : '=' ∉ d.quoteClose.data) :
    renderPred d al (.cmp col .eq .vNull) =
      .ok (qualifyCol d al col ++ " IS NULL") ∧
    renderPred d al (.cmp col .ne .vNull) =
      .ok (qualifyCol d al col ++ " IS NOT NULL") ∧
    containsStr (qualifyCol d al col ++ " IS NULL") "IS NULL" ∧
    containsStr (qualifyCol d al col ++ " IS NOT NULL") "IS NOT NULL" ∧
    ¬ containsStr (qualifyCol d al col ++ " IS NULL") "= NULL" ∧
    ¬ containsStr (qualifyCol d al col ++ " IS NOT NULL") "= NULL" := by
  have hdot : '=' ∉ (".").data := by decide
  have hq : '=' ∉ (qualifyCol d al col).data := by
    simp only [qualifyCol, quoteId, String.data_append, List.mem_append,
      not_or]
    tauto
  refine ⟨rfl, rfl, ?_, ?_, ?_, ?_⟩
  · exact ⟨(qualifyCol d al col).data ++ [' '], [],
      by simp [String.data_append]⟩
  · exact ⟨(qualifyCol d al col).data ++ [' '], [],
      by simp [String.data_append]⟩
  · intro hc
    have hm : '=' ∈ (qualifyCol d al col ++ " IS NULL").data :=
      hc.subset (by decide)
    rw [String.data_append] at hm
    rcases List.mem_append.mp hm with hx | hx
    · exact hq hx
    · exact absurd hx (by decide)
  · intro hc
    have hm : '=' ∈ (qualifyCol d al col ++ " IS NOT NULL").data :=
      hc.subset (by decide)
    rw [String.data_append] at hm
    rcases List.mem_append.mp hm with hx | hx
    · exact hq hx
    · exact absurd hx (by decide)

/-- Witness for C7: the age column of the User model on the postgres-style
dialect. -/
theorem qb_null_operand_rewrite_witness :
    ('=' ∉ ("User").data ∧ '=' ∉ ("age").data ∧
      '=' ∉ pgDialect.quoteOpen.data ∧ '=' ∉ pgDialect.quoteClose.data) ∧
    (renderPred pgDialect "User" (.cmp "age" .eq .vNull) =
        .ok (qualifyCol pgDialect "User" "age" ++ " IS NULL") ∧
      renderPred pgDialect "User" (.cmp "age" .ne .vNull) =
        .ok (qualifyCol pgDialect "User" "age" ++ " IS NOT NULL") ∧
      containsStr (qualifyCol pgDialect "User" "age" ++ " IS NULL")
        "IS NULL" ∧
      containsStr (qualifyCol pgDialect "User" "age" ++ " IS NOT NULL")
        "IS NOT NULL" ∧
      ¬ containsStr (qualifyCol pgDialect "User" "age" ++ " IS NULL")
        "= NULL" ∧
      ¬ containsStr (qualifyCol pgDialect "User" "age" ++ " IS NOT NULL")
        "= NULL") :=
  ⟨⟨by decide, by decide, by decide, by decide⟩,
    qb_null_operand_rewrite pgDialect "User" "age" (by decide) (by decide)
      (by decide) (by decide)⟩

/-- C8: for a builder in select mode with a limit set and no explicit
ordering supplied (the descriptor carries none), the rendered statement
contains ORDER BY alias.primaryKey placed before the pagination clause; on
an OFFSET_FETCH dialect a limit with no offset renders OFFSET 0 ROWS FETCH
NEXT limit ROWS ONLY, the offset defaulting to zero, while on a
LIMIT_OFFSET dialect each of LIMIT and OFFSET is emitted only if present,
LIMIT before OFFSET; the ORDER BY fallback fires for any present limit or
offset. -/
theorem qb_pagination_defaults (b : QueryBuilder) (d : Dialect) (n : Nat)
    (hSel : b._isSelect = true) (hA : b._attributes = none)
    (hW : b._where = WhereArg.undef) (hL : b._limit = some n) :
    b.getQuery d =
      .ok ("SELECT * FROM " ++ quoteId d b._model.tableName ++ " AS " ++
        quoteId d b._model.tableAlias ++
        (" ORDER BY " ++ quoteId d b._model.tableAlias ++ "." ++
          quoteId d b._model.primaryKey) ++
        paginationClause d (some n) b._offset ++ ";") ∧
    (d.paginationStyle = PaginationStyle.offsetFetch →
      paginationClause d (some n) none =
        " OFFSET 0 ROWS FETCH NEXT " ++ toString n ++ " ROWS ONLY") ∧
    (d.paginationStyle = PaginationStyle.limitOffset →
      paginationClause d (some n) b._offset =
        " LIMIT " ++ toString n ++
          (match b._offset with
           | none => ""
           | some k => " OFFSET " ++ toString k)) ∧
    (∀ lo oo : Option Nat, lo.isSome ∨ oo.isSome →
      orderByClause d b._model lo oo =
        " ORDER BY " ++ quoteId d b._model.tableAlias ++ "." ++
          quoteId d b._model.primaryKey) := by
  refine ⟨?_, ?_, ?_, ?_⟩
  · have h := getQuery_eq_assembled b d hSel hA hW
    rw [hL] at h
    rw [h]
    simp [orderByClause]
  · intro hp
    simp only [paginationClause, hp]
    rfl
  · intro hp
    simp only [paginationClause, hp]
  · intro lo oo hso
    cases hso with
    | inl h => simp [orderByClause, h]
    | inr h => simp [orderByClause, h]

/-- Witness for C8: select().limit(10) on the User model with the
mssql-style OFFSET_FETCH dialect, matching the integration test. -/
theorem qb_pagination_defaults_witness :
    (((createQueryBuilder userModel).select.limit 10)._isSelect = true ∧
      ((createQueryBuilder userModel).select.limit 10)._attributes = none ∧
      ((createQueryBuilder userModel).select.limit 10)._where =
        WhereArg.undef ∧
      ((createQueryBuilder userModel).select.limit 10)._limit = some 10) ∧
    ((createQueryBuilder userModel).select.limit 10).getQuery mssqlDialect =
      .ok "SELECT * FROM [users] AS [User] ORDER BY [User].[id] OFFSET 0 ROWS FETCH NEXT 10 ROWS ONLY;" ∧
    paginationClause mssqlDialect (some 10) none =
      " OFFSET 0 ROWS FETCH NEXT 10 ROWS ONLY" :=
  ⟨⟨rfl, rfl, rfl, rfl⟩,
    (qb_pagination_defaults ((createQueryBuilder userModel).select.limit 10)
      mssqlDialect 10 rfl rfl rfl rfl).1,
    (qb_pagination_defaults ((createQueryBuilder userModel).select.limit 10)
      mssqlDialect 10 rfl rfl rfl rfl).2.1 rfl⟩
